import Mathlib

/-!
Shallow embedding of the `gcode_sample_generator` program assembly pipeline
(`main.py`, `sequence.py`).  Python floats are modelled as rationals; every
random draw of the Python `random` module is an explicitly injected seed:
`random.randint(a, b)` becomes `a + r % (b - a + 1)`,
`random.choice(lst)` becomes an indexed lookup by `r % lst.length`, and
`random.uniform(a, b)` becomes `a + (b - a) * Int.fract r`.
The wall clock (`datetime.now()` formatted strings) is an explicit input.
-/

namespace GcodeGen

/-- Model of `random.randint(a, b)`: seed `r` is reduced to the closed
interval `[a, b]`. -/
def randint (a b : Nat) (r : Nat) : Nat := a + r % (b - a + 1)

/-- Model of `random.choice(lst)`: seed `r` selects index `r % lst.length`.
Python raises `IndexError` on an empty list; the default is never used by
call sites on nonempty lists. -/
def pychoice [Inhabited α] (l : List α) (r : Nat) : α :=
  l.getD (r % l.length) default

/-- Model of `random.uniform(a, b) = a + (b - a) * random()`, with the unit
draw `random()` modelled as the fractional part of the rational seed. -/
def uniformQ (a b : ℚ) (r : ℚ) : ℚ := a + (b - a) * Int.fract r

/-- Round-half-to-even on rationals, the rounding mode of Python `round`. -/
def roundHalfEven (q : ℚ) : ℤ :=
  if q - (⌊q⌋ : ℚ) < 1 / 2 then ⌊q⌋
  else if (1 : ℚ) / 2 < q - (⌊q⌋ : ℚ) then ⌊q⌋ + 1
  else if ⌊q⌋ % 2 = 0 then ⌊q⌋ else ⌊q⌋ + 1

/-- Model of Python `round(x, 2)`. -/
def round2 (q : ℚ) : ℚ := (roundHalfEven (q * 100) : ℚ) / 100

/-- A numeric range with `min` and `max` fields, as in the tool JSON schema
(`ipt` and `sfm` entries of `tcode_generator/tcode_main.py`). -/
structure QRange where
  min : ℚ
  max : ℚ
deriving DecidableEq

/-- One tool record of the catalog, mirroring the JSON schema produced by
`tcode_generator/tcode_main.py` and consumed by `main.py`/`sequence.py`. -/
structure Tool where
  toolType : String
  diameter : ℚ
  flutes : Nat
  length : ℚ
  cutlength : ℚ
  ipt : QRange
  sfm : QRange
  indexable : Bool
  coolant : Bool
  air : Bool
  cutcom : Bool
deriving DecidableEq

instance : Inhabited Tool :=
  ⟨⟨"", 0, 0, 0, 0, ⟨0, 0⟩, ⟨0, 0⟩, false, false, false, false⟩⟩

/-- The draws consumed by one `SeqGenerator.generate_random_motion` call:
the `sfm` uniform draw, the `ipt` uniform draw, the shape-method choice,
the `size` draw, the cutter-compensation choice, and the plunge-feed
divisor draw. -/
structure SeqDraws where
  sfmR : ℚ
  iptR : ℚ
  shapeR : Nat
  sizeR : Nat
  compR : Nat
  plungeR : Nat

/-- The `datetime.now()` readings used for the revision metadata. -/
structure Clock where
  date : String
  time : String

/-- `SeqGenerator.APPROACH`. -/
def APPROACH : ℚ := 1

/-- `SeqGenerator.RETRACT`. -/
def RETRACT : ℚ := 1 / 4

/-- `SeqGenerator._calc_random_rpm`:
`round(uniform(sfm.min, sfm.max) * 3.82 / diameter, 2)`. -/
def calcRandomRpm (p : Tool) (r : ℚ) : ℚ :=
  round2 (uniformQ p.sfm.min p.sfm.max r * 3.82 / p.diameter)

/-- `SeqGenerator._calc_random_feedrate`:
`round(uniform(ipt.min, ipt.max) * rpm, 2)`. -/
def calcRandomFeedrate (p : Tool) (rpm : ℚ) (r : ℚ) : ℚ :=
  round2 (uniformQ p.ipt.min p.ipt.max r * rpm)

/-- `SeqGenerator._cutter_compensation`: if the tool supports cutter
compensation, choose among `None`, `"G41"`, `"G42"`; else `None`. -/
def cutterCompensation (p : Tool) (r : Nat) : Option String :=
  if p.cutcom then pychoice [none, some ("G41"), some ("G42")] r else none

/-- The three shape families named in `sequence.py` (`_square`, `_oval`,
`_triangle`). -/
inductive Shape where
  | square
  | oval
  | triangle
deriving DecidableEq

instance : Inhabited Shape := ⟨Shape.square⟩

/-- `random.choice([self._square, self._oval])` in
`generate_random_motion`: the choice list contains only the two
implemented families. -/
def chooseShape (r : Nat) : Shape := pychoice [Shape.square, Shape.oval] r

/-- The six opening lines of `SeqGenerator._square` (annotation, tool
change, spindle start, approach, pre-plunge, plunge). -/
def squareSeg1 (tid : String) (size : Nat) (rpm feedrate : ℚ) (plungeR : Nat) :
    List String :=
  let corner_radius : ℚ := (size : ℚ) / 5
  let seq_name : String :=
    "Draw Square -- Size: " ++ toString size ++ "in, Corners: " ++
      toString corner_radius ++ "in)"
  [ "(@@ seq_name = " ++ seq_name ++ ")",
    "T" ++ tid ++ " M6",
    "S" ++ toString rpm ++ " M3",
    "G0 X0 Y-" ++ toString (APPROACH + corner_radius) ++ " Z3.0",
    "G0 Z0.1",
    "G1 Z0.0 F" ++ toString (round2 (feedrate * 1 / (randint 1 5 plungeR : ℚ))) ]

/-- The eleven traversal lines of `SeqGenerator._square` (edges, corner
arcs and the retract arc). -/
def squareSeg2 (size : Nat) (feedrate : ℚ) : List String :=
  let corner_radius : ℚ := (size : ℚ) / 5
  [ "G1 Y-" ++ toString corner_radius,
    "G2 X" ++ toString corner_radius ++ " Y0 I" ++ toString corner_radius ++ " J0",
    "G1 X" ++ toString ((size : ℚ) - corner_radius) ++ " Y0 F" ++ toString feedrate,
    "G3 X" ++ toString size ++ " Y" ++ toString corner_radius ++ " I0 J" ++ toString corner_radius,
    "G1 X" ++ toString size ++ " Y" ++ toString ((size : ℚ) - corner_radius),
    "G3 X" ++ toString ((size : ℚ) - corner_radius) ++ " Y" ++ toString size ++ " I-" ++ toString corner_radius ++ " J0",
    "G1 X" ++ toString corner_radius ++ " Y" ++ toString size,
    "G3 X0 Y" ++ toString ((size : ℚ) - corner_radius) ++ " I0 J-" ++ toString corner_radius,
    "G1 X0 Y" ++ toString corner_radius,
    "G3 X" ++ toString corner_radius ++ " Y0 I" ++ toString corner_radius ++ " J0",
    "G2 X" ++ toString (corner_radius + RETRACT) ++ " Y-" ++ toString RETRACT ++ " I0 J-" ++ toString RETRACT ]

/-- `SeqGenerator._square`: opening segment, optional compensation-on,
traversal segment, compensation-off if compensation was on, Z retract. -/
def squareBody (tid : String) (size : Nat) (cutcom : Option String)
    (rpm feedrate : ℚ) (plungeR : Nat) : List String :=
  squareSeg1 tid size rpm feedrate plungeR
  ++ (match cutcom with | some c => [c] | none => [])
  ++ squareSeg2 size feedrate
  ++ (match cutcom with | some _ => ["G40"] | none => [])
  ++ ["G0 Z3.0"]

/-- The six opening lines of `SeqGenerator._oval`. -/
def ovalSeg1 (tid : String) (size : Nat) (rpm feedrate : ℚ) (plungeR : Nat) :
    List String :=
  let arc_size : ℚ := (size : ℚ) / 2
  let seq_name : String :=
    "Draw Oval -- Size: " ++ toString size ++ "in, Arcsize: " ++
      toString arc_size ++ "in"
  [ "(@@ seq_name = " ++ seq_name ++ ")",
    "T" ++ tid ++ " M6",
    "S" ++ toString rpm ++ " M3",
    "G0 X-1.0 Y-2.0 Z3.0",
    "G0 Z0.1",
    "G1 Z0.0 F" ++ toString (round2 (feedrate * 1 / (randint 1 5 plungeR : ℚ))) ]

/-- The nine traversal lines of `SeqGenerator._oval`. -/
def ovalSeg2 (size : Nat) (feedrate : ℚ) : List String :=
  let arc_size : ℚ := (size : ℚ) / 2
  [ "G1 Y-1.0",
    "G2 X0 Y0 I1.0 J0",
    "G3 X" ++ toString arc_size ++ " Y" ++ toString arc_size ++ " I0 J" ++ toString arc_size ++ " F" ++ toString feedrate,
    "G1 Y" ++ toString (arc_size + 1),
    "G3 X0 Y" ++ toString (size + 1) ++ " I-" ++ toString arc_size ++ " J0",
    "G3 X-" ++ toString arc_size ++ " Y" ++ toString (arc_size + 1) ++ " I0 J-" ++ toString arc_size,
    "G1 Y" ++ toString arc_size,
    "G3 X0 Y0 I" ++ toString arc_size ++ " J0",
    "G2 X" ++ toString RETRACT ++ " Y-" ++ toString RETRACT ++ " I0 J-" ++ toString RETRACT ]

/-- `SeqGenerator._oval`: opening segment, optional compensation-on,
traversal segment, compensation-off if compensation was on, Z retract. -/
def ovalBody (tid : String) (size : Nat) (cutcom : Option String)
    (rpm feedrate : ℚ) (plungeR : Nat) : List String :=
  ovalSeg1 tid size rpm feedrate plungeR
  ++ (match cutcom with | some c => [c] | none => [])
  ++ ovalSeg2 size feedrate
  ++ (match cutcom with | some _ => ["G40"] | none => [])
  ++ ["G0 Z3.0"]

/-- `SeqGenerator._triangle`: the unimplemented family; the source returns
an empty payload (an empty string), read as an empty line list. -/
def triangleBody : List String := []

/-- `SeqGenerator.generate_random_motion`: draw rpm, feedrate, the shape
method, size, and cutter compensation, then run the chosen shape. -/
def generateRandomMotion (tid : String) (p : Tool) (d : SeqDraws) : List String :=
  let rpm := calcRandomRpm p d.sfmR
  let feedrate := calcRandomFeedrate p rpm d.iptR
  let size := randint 5 20 d.sizeR
  let cutcom := cutterCompensation p d.compR
  match chooseShape d.shapeR with
  | Shape.square => squareBody tid size cutcom rpm feedrate d.plungeR
  | Shape.oval => ovalBody tid size cutcom rpm feedrate d.plungeR
  | Shape.triangle => triangleBody

/-- `GCodeSampleGenerator._get_partnum`: three digits, a letter from a
ten-letter list, four digits, a dash, one digit. -/
def getPartnum (r1 r2 r3 r4 : Nat) : String :=
  toString (randint 100 999 r1) ++
    pychoice ["A", "B", "C", "D", "E", "F", "G", "H", "I", "J"] r2 ++
    toString (randint 1000 9999 r3) ++ "-" ++ toString (randint 1 9 r4)

/-- `GCodeSampleGenerator._get_machineid`: `random.choice([1, 2, 3])`. -/
def getMachineid (r : Nat) : Nat := pychoice [1, 2, 3] r

/-- `GCodeSampleGenerator._get_controlleros`: `random.choice(["grbl"])`. -/
def getControlleros (r : Nat) : String := pychoice ["grbl"] r

/-- The weighted subset-size population of `_get_tcodes`:
`[2, 3, 4] * 10 + list(range(5, 21))`. -/
def weightedChoices : List Nat :=
  (List.replicate 10 [2, 3, 4]).flatten ++ List.range' 5 16

/-- The error taxonomy named by the specification for the selector.  The
source code of the repository defines no such exception; the `Except`
channel below records that the selector never produces it. -/
inductive GenError where
  | insufficientCatalog
deriving DecidableEq

/-- Model of `random.sample(pool, k)`: `k` successive draws without
replacement, each seed picking an index into the remaining pool. -/
def pysample [Inhabited α] (pool : List α) (k : Nat) (sR : Nat → Nat) (j : Nat) : List α :=
  match k with
  | 0 => []
  | k + 1 =>
    let i := sR j % pool.length
    pool.getD i default :: pysample (pool.eraseIdx i) k sR (j + 1)

/-- `GCodeSampleGenerator._get_tcodes` on an in-memory catalog: draw a
weighted subset size, clamp it to the catalog size, and sample that many
entries without replacement.  No code path raises. -/
def getTcodes (allTools : List (String × Tool)) (wR : Nat) (sR : Nat → Nat) :
    Except GenError (List (String × Tool)) :=
  let numKeys := min (pychoice weightedChoices wR) allTools.length
  Except.ok (pysample allTools numKeys sR 0)

/-- `GCodeSampleGenerator._get_number_of_sequences`:
`max_sequences = len(tcodes) + randint(0, 5)` then
`randint(len(tcodes), max_sequences)`. -/
def getNumberOfSequences (numTools : Nat) (extraR nR : Nat) : Nat :=
  let max_sequences := numTools + randint 0 5 extraR
  randint numTools max_sequences nR

/-- The attributes set by `GCodeSampleGenerator.__init__` that the header
generator reads (plus `machineid`, stored but unused by the header). -/
structure GenState where
  fileid : Nat
  partnum : String
  machineid : Nat
  revisiondate : String
  revisiontime : String
  controlleros : String

/-- The draws consumed by one whole pipeline run after tool selection:
`__init__` attribute draws, sequence-count draws, the per-extra-sequence
tool choices, and the per-sequence motion draws. -/
structure RunDraws where
  fileidR : Nat
  partR1 : Nat
  partR2 : Nat
  partR3 : Nat
  partR4 : Nat
  machineR : Nat
  osR : Nat
  extraR : Nat
  numSeqR : Nat
  extraPickR : Nat → Nat
  seqR : Nat → SeqDraws

/-- The `__init__` attribute assignments (selection and sequence count are
threaded separately). -/
def buildState (now : Clock) (d : RunDraws) : GenState :=
  { fileid := randint 1000000 9999999 d.fileidR
    partnum := getPartnum d.partR1 d.partR2 d.partR3 d.partR4
    machineid := getMachineid d.machineR
    revisiondate := now.date
    revisiontime := now.time
    controlleros := getControlleros d.osR }

/-- The nine `header_meta` annotation lines of `_generate_header`.  Note
`meta_filenum`, `meta_revisionid`, `meta_authorid` and `meta_machineid`
are emitted as fixed literals (`revisionid = 1.0` prints as `1.0`). -/
def headerMeta (st : GenState) : List String :=
  [ "(@@ meta_fileid = " ++ toString st.fileid ++ ")",
    "(@@ meta_partnum = " ++ st.partnum ++ ")",
    "(@@ meta_filenum = 1)",
    "(@@ meta_revisionid = 1.0)",
    "(@@ meta_revisiondate = " ++ st.revisiondate ++ ")",
    "(@@ meta_revisiontime = " ++ st.revisiontime ++ ")",
    "(@@ meta_authorid = 1)",
    "(@@ meta_machineid = 1)",
    "(@@ meta_controlleros = " ++ st.controlleros ++ ")" ]

/-- The grbl startup command block of `_generate_header`. -/
def startupCodes : List String :=
  ["G90 G94 G17 G49 G40 G80", "G20", "G28 G91 Z0.", "G90"]

/-- `GCodeSampleGenerator._generate_file_start`: the unnumbered preamble;
`None` for the unimplemented controller variants. -/
def generateFileStart (os : String) : Option (List String) :=
  match os with
  | "grbl" => some ["%"]
  | "fanuc" => none
  | "siemens" => none
  | _ => none

/-- `GCodeSampleGenerator._generate_header`. -/
def generateHeader (st : GenState) : Option (List String) :=
  match st.controlleros with
  | "grbl" => some (headerMeta st ++ startupCodes)
  | "fanuc" => none
  | "siemens" => none
  | _ => none

/-- The `seq_start` marker line. -/
def startMarker (n : Nat) : String := "(@@ seq_start = " ++ toString n ++ ")"

/-- The `seq_end` marker line. -/
def endMarker (n : Nat) : String := "(@@ seq_end = " ++ toString n ++ ")"

/-- The per-sequence tool assignment of `_generate_sequences`: all selected
entries once (dict iteration order), then random choices from the selected
entries until `number_of_sequences` is reached.  The source picks a key and
looks its record up in the selection dict; the pair is carried directly. -/
def seqnoTools (tcodes : List (String × Tool)) (n : Nat) (pickR : Nat → Nat) :
    List (String × Tool) :=
  tcodes ++ (List.range (n - tcodes.length)).map (fun i => pychoice tcodes (pickR i))

/-- One sequence of `_generate_sequences`: `seq_start` marker, motion body,
`seq_end` marker. -/
def seqChunk (seqno : Nat) (kv : String × Tool) (d : SeqDraws) : List String :=
  startMarker seqno :: (generateRandomMotion kv.1 kv.2 d ++ [endMarker seqno])

/-- `GCodeSampleGenerator._generate_sequences`: generate each planned
sequence in order, ordinals starting at 1. -/
def generateSequences (tcodes : List (String × Tool)) (n : Nat)
    (pickR : Nat → Nat) (seqR : Nat → SeqDraws) : List String :=
  ((seqnoTools tcodes n pickR).enum.map
    (fun p => seqChunk (p.1 + 1) p.2 (seqR p.1))).flatten

/-- `GCodeSampleGenerator._generate_gcode`: unnumbered preamble, then the
header + sequences + `M30` each prefixed with `N{start + i}` where
`start = len(preamble) + 1`, then the closing `%`. -/
def generateGcode (st : GenState) (tcodes : List (String × Tool)) (n : Nat)
    (pickR : Nat → Nat) (seqR : Nat → SeqDraws) : Option (List String) := do
  let no_nblock ← generateFileStart st.controlleros
  let header ← generateHeader st
  let with_nblock := header ++ generateSequences tcodes n pickR seqR ++ ["M30"]
  let start_block_num := no_nblock.length + 1
  return no_nblock ++
    with_nblock.enum.map (fun p => "N" ++ toString (start_block_num + p.1) ++ " " ++ p.2) ++
    ["%"]

/-- The whole pipeline from an already selected tool subset: the `__init__`
attribute draws, the sequence-count draw, and program assembly. -/
def runPipeline (now : Clock) (tcodes : List (String × Tool)) (d : RunDraws) :
    Option (List String) :=
  let st := buildState now d
  let n := getNumberOfSequences tcodes.length d.extraR d.numSeqR
  generateGcode st tcodes n d.extraPickR d.seqR

/-- Boolean string-prefix test over the underlying character lists. -/
def startsWithStr (p s : String) : Bool := p.data.isPrefixOf s.data

/-- Recognizer for sequence marker lines. -/
def isMarkerB (s : String) : Bool :=
  startsWithStr ("(@@ seq_start = ") s || startsWithStr ("(@@ seq_end = ") s

/-- A line list that consists of consecutive marker-bracketed chunks with
ascending ordinals from `k + 1`, each body free of marker lines and lying
strictly between its two markers. -/
inductive Chunked : Nat → List String → Prop where
  | nil (k : Nat) : Chunked k []
  | cons (k : Nat) (body rest : List String)
      (hbody : ∀ line ∈ body, isMarkerB line = false)
      (hrest : Chunked (k + 1) rest) :
      Chunked k (startMarker (k + 1) :: (body ++ endMarker (k + 1) :: rest))

/-- A line that is neither a sequence marker nor one of the cutter
compensation commands. -/
def lineOk (s : String) : Prop :=
  isMarkerB s = false ∧ s ≠ "G40" ∧ s ≠ "G41" ∧ s ≠ "G42"

/-- A sample tool record for concrete witnesses. -/
def tool0 : Tool :=
  { toolType := "endmill", diameter := 1 / 2, flutes := 2, length := 3,
    cutlength := 1, ipt := ⟨1 / 100, 1 / 50⟩, sfm := ⟨100, 200⟩,
    indexable := false, coolant := true, air := true, cutcom := true }

/-- A sample tool record that does not support cutter compensation. -/
def toolNC : Tool :=
  { toolType := "endmill", diameter := 1 / 2, flutes := 2, length := 3,
    cutlength := 1, ipt := ⟨1 / 100, 1 / 50⟩, sfm := ⟨100, 200⟩,
    indexable := false, coolant := true, air := true, cutcom := false }

/-- A one-entry selected tool subset for concrete witnesses. -/
def T0 : List (String × Tool) := [("100001", tool0)]

/-- All-zero per-sequence draws. -/
def sd0 : SeqDraws := ⟨0, 0, 0, 0, 0, 0⟩

/-- All-zero pipeline draws. -/
def d0 : RunDraws :=
  { fileidR := 0, partR1 := 0, partR2 := 0, partR3 := 0, partR4 := 0,
    machineR := 0, osR := 0, extraR := 0, numSeqR := 0,
    extraPickR := fun _ => 0, seqR := fun _ => sd0 }

/-- A first wall-clock reading. -/
def clock1 : Clock := ⟨"01-01-2024", "01:00:00am"⟩

/-- A second wall-clock reading, one day later. -/
def clock2 : Clock := ⟨"01-02-2024", "01:00:00am"⟩

/-- The revision-date line of an assembled program (program line index 5). -/
def metaLine5 (o : Option (List String)) : Option String :=
  o.bind fun l => l[5]?

/-! Helper lemmas: character-level string facts. -/

theorem data_get_append {s : String} (t : String) {i : Nat} {c : Char}
    (h : s.data[i]? = some c) : (s ++ t).data[i]? = some c := by
  obtain ⟨hlt, hv⟩ := List.getElem?_eq_some.mp h
  rw [String.data_append s t, List.getElem?_append, if_pos hlt, h]

theorem str_ne_of_get {s t : String} (i : Nat) (a b : Char)
    (hs : s.data[i]? = some a) (ht : t.data[i]? = some b)
    (hne : a ≠ b) : s ≠ t := by
  intro h
  rw [h, ht] at hs
  exact hne (Option.some.inj hs).symm

theorem sw_false_of_get {p s : String} (i : Nat) (a b : Char)
    (hp : p.data[i]? = some a) (hs : s.data[i]? = some b)
    (hne : a ≠ b) : startsWithStr p s = false := by
  rw [startsWithStr]
  by_contra hcon
  have htrue : p.data.isPrefixOf s.data = true := by
    cases hx : p.data.isPrefixOf s.data
    · exact absurd hx hcon
    · rfl
  obtain ⟨r, hr⟩ := List.isPrefixOf_iff_prefix.mp htrue
  obtain ⟨hlt, hv⟩ := List.getElem?_eq_some.mp hp
  rw [← hr, List.getElem?_append, if_pos hlt, hp] at hs
  exact hne (Option.some.inj hs)

theorem sw_true_of_data {p s : String} (r : List Char)
    (h : s.data = p.data ++ r) : startsWithStr p s = true := by
  rw [startsWithStr]
  exact List.isPrefixOf_iff_prefix.mpr ⟨r, h.symm⟩

theorem isMarkerB_startMarker (n : Nat) : isMarkerB (startMarker n) = true := by
  have h : startsWithStr ("(@@ seq_start = ") (startMarker n) = true := by
    refine sw_true_of_data ((toString n).data ++ ")".data) ?_
    rw [startMarker, String.data_append, String.data_append, List.append_assoc]
  rw [isMarkerB, h, Bool.true_or]

theorem isMarkerB_endMarker (n : Nat) : isMarkerB (endMarker n) = true := by
  have h : startsWithStr ("(@@ seq_end = ") (endMarker n) = true := by
    refine sw_true_of_data ((toString n).data ++ ")".data) ?_
    rw [endMarker, String.data_append, String.data_append, List.append_assoc]
  rw [isMarkerB, h, Bool.or_true]

/-! Helper lemmas: per-line classification of motion body lines. -/

theorem lineOk_of_head {s : String} (c : Char) (h : s.data[0]? = some c)
    (h1 : c ≠ '(') (h2 : c ≠ 'G') : lineOk s := by
  refine ⟨?_, ?_, ?_, ?_⟩
  · rw [isMarkerB, sw_false_of_get 0 '(' c (by decide) h (fun he => h1 he.symm),
      sw_false_of_get 0 '(' c (by decide) h (fun he => h1 he.symm), Bool.or_false]
  · exact str_ne_of_get 0 c 'G' h (by decide) h2
  · exact str_ne_of_get 0 c 'G' h (by decide) h2
  · exact str_ne_of_get 0 c 'G' h (by decide) h2

theorem lineOk_of_G {s : String} (c : Char) (h0 : s.data[0]? = some 'G')
    (h1 : s.data[1]? = some c) (hc : c ≠ '4') : lineOk s := by
  refine ⟨?_, ?_, ?_, ?_⟩
  · rw [isMarkerB, sw_false_of_get 0 '(' 'G' (by decide) h0 (by decide),
      sw_false_of_get 0 '(' 'G' (by decide) h0 (by decide), Bool.or_false]
  · exact str_ne_of_get 1 c '4' h1 (by decide) hc
  · exact str_ne_of_get 1 c '4' h1 (by decide) hc
  · exact str_ne_of_get 1 c '4' h1 (by decide) hc

theorem lineOk_of_name {s : String} (h0 : s.data[0]? = some '(')
    (h8 : s.data[8]? = some 'n') : lineOk s := by
  refine ⟨?_, ?_, ?_, ?_⟩
  · rw [isMarkerB, sw_false_of_get 8 's' 'n' (by decide) h8 (by decide),
      sw_false_of_get 8 'e' 'n' (by decide) h8 (by decide), Bool.or_false]
  · exact str_ne_of_get 0 '(' 'G' h0 (by decide) (by decide)
  · exact str_ne_of_get 0 '(' 'G' h0 (by decide) (by decide)
  · exact str_ne_of_get 0 '(' 'G' h0 (by decide) (by decide)

theorem squareSeg1_ok (tid : String) (size : Nat) (rpm feedrate : ℚ) (pl : Nat) :
    ∀ line ∈ squareSeg1 tid size rpm feedrate pl, lineOk line := by
  intro line h
  simp only [squareSeg1, List.mem_cons, List.not_mem_nil, or_false] at h
  rcases h with h|h|h|h|h|h <;> subst h
  · exact lineOk_of_name (by (repeat apply data_get_append); decide)
      (by (repeat apply data_get_append); decide)
  · exact lineOk_of_head 'T' (by (repeat apply data_get_append); decide)
      (by decide) (by decide)
  · exact lineOk_of_head 'S' (by (repeat apply data_get_append); decide)
      (by decide) (by decide)
  · exact lineOk_of_G '0' (by (repeat apply data_get_append); decide)
      (by (repeat apply data_get_append); decide) (by decide)
  · exact lineOk_of_G '0' (by decide) (by decide) (by decide)
  · exact lineOk_of_G '1' (by (repeat apply data_get_append); decide)
      (by (repeat apply data_get_append); decide) (by decide)

theorem squareSeg2_ok (size : Nat) (feedrate : ℚ) :
    ∀ line ∈ squareSeg2 size feedrate, lineOk line := by
  intro line h
  simp only [squareSeg2, List.mem_cons, List.not_mem_nil, or_false] at h
  rcases h with h|h|h|h|h|h|h|h|h|h|h <;> subst h
  · exact lineOk_of_G '1' (by (repeat apply data_get_append); decide)
      (by (repeat apply data_get_append); decide) (by decide)
  · exact lineOk_of_G '2' (by (repeat apply data_get_append); decide)
      (by (repeat apply data_get_append); decide) (by decide)
  · exact lineOk_of_G '1' (by (repeat apply data_get_append); decide)
      (by (repeat apply data_get_append); decide) (by decide)
  · exact lineOk_of_G '3' (by (repeat apply data_get_append); decide)
      (by (repeat apply data_get_append); decide) (by decide)
  · exact lineOk_of_G '1' (by (repeat apply data_get_append); decide)
      (by (repeat apply data_get_append); decide) (by decide)
  · exact lineOk_of_G '3' (by (repeat apply data_get_append); decide)
      (by (repeat apply data_get_append); decide) (by decide)
  · exact lineOk_of_G '1' (by (repeat apply data_get_append); decide)
      (by (repeat apply data_get_append); decide) (by decide)
  · exact lineOk_of_G '3' (by (repeat apply data_get_append); decide)
      (by (repeat apply data_get_append); decide) (by decide)
  · exact lineOk_of_G '1' (by (repeat apply data_get_append); decide)
      (by (repeat apply data_get_append); decide) (by decide)
  · exact lineOk_of_G '3' (by (repeat apply data_get_append); decide)
      (by (repeat apply data_get_append); decide) (by decide)
  · exact lineOk_of_G '2' (by (repeat apply data_get_append); decide)
      (by (repeat apply data_get_append); decide) (by decide)

theorem ovalSeg1_ok (tid : String) (size : Nat) (rpm feedrate : ℚ) (pl : Nat) :
    ∀ line ∈ ovalSeg1 tid size rpm feedrate pl, lineOk line := by
  intro line h
  simp only [ovalSeg1, List.mem_cons, List.not_mem_nil, or_false] at h
  rcases h with h|h|h|h|h|h <;> subst h
  · exact lineOk_of_name (by (repeat apply data_get_append); decide)
      (by (repeat apply data_get_append); decide)
  · exact lineOk_of_head 'T' (by (repeat apply data_get_append); decide)
      (by decide) (by decide)
  · exact lineOk_of_head 'S' (by (repeat apply data_get_append); decide)
      (by decide) (by decide)
  · exact lineOk_of_G '0' (by decide) (by decide) (by decide)
  · exact lineOk_of_G '0' (by decide) (by decide) (by decide)
  · exact lineOk_of_G '1' (by (repeat apply data_get_append); decide)
      (by (repeat apply data_get_append); decide) (by decide)

theorem ovalSeg2_ok (size : Nat) (feedrate : ℚ) :
    ∀ line ∈ ovalSeg2 size feedrate, lineOk line := by
  intro line h
  simp only [ovalSeg2, List.mem_cons, List.not_mem_nil, or_false] at h
  rcases h with h|h|h|h|h|h|h|h|h <;> subst h
  · exact lineOk_of_G '1' (by decide) (by decide) (by decide)
  · exact lineOk_of_G '2' (by decide) (by decide) (by decide)
  · exact lineOk_of_G '3' (by (repeat apply data_get_append); decide)
      (by (repeat apply data_get_append); decide) (by decide)
  · exact lineOk_of_G '1' (by (repeat apply data_get_append); decide)
      (by (repeat apply data_get_append); decide) (by decide)
  · exact lineOk_of_G '3' (by (repeat apply data_get_append); decide)
      (by (repeat apply data_get_append); decide) (by decide)
  · exact lineOk_of_G '3' (by (repeat apply data_get_append); decide)
      (by (repeat apply data_get_append); decide) (by decide)
  · exact lineOk_of_G '1' (by (repeat apply data_get_append); decide)
      (by (repeat apply data_get_append); decide) (by decide)
  · exact lineOk_of_G '3' (by (repeat apply data_get_append); decide)
      (by (repeat apply data_get_append); decide) (by decide)
  · exact lineOk_of_G '2' (by (repeat apply data_get_append); decide)
      (by (repeat apply data_get_append); decide) (by decide)

/-- Every line of either shape body is a regular toolpath line, or comes
from the compensation choice (the chosen command or the closing `G40`). -/
theorem squareBody_classify (tid : String) (size : Nat) (cutcom : Option String)
    (rpm feedrate : ℚ) (pl : Nat) :
    ∀ line ∈ squareBody tid size cutcom rpm feedrate pl,
      lineOk line ∨ (∃ x, cutcom = some x ∧ (line = x ∨ line = "G40")) := by
  intro line h
  simp only [squareBody, List.mem_append] at h
  rcases h with ((((h|h)|h)|h)|h)
  · exact Or.inl (squareSeg1_ok tid size rpm feedrate pl line h)
  · cases hc : cutcom with
    | none => rw [hc] at h; simp at h
    | some x =>
      rw [hc] at h
      simp only [List.mem_singleton] at h
      exact Or.inr ⟨x, rfl, Or.inl h⟩
  · exact Or.inl (squareSeg2_ok size feedrate line h)
  · cases hc : cutcom with
    | none => rw [hc] at h; simp at h
    | some x =>
      rw [hc] at h
      simp only [List.mem_singleton] at h
      exact Or.inr ⟨x, rfl, Or.inr h⟩
  · simp only [List.mem_singleton] at h
    subst h
    exact Or.inl (lineOk_of_G '0' (by decide) (by decide) (by decide))

theorem ovalBody_classify (tid : String) (size : Nat) (cutcom : Option String)
    (rpm feedrate : ℚ) (pl : Nat) :
    ∀ line ∈ ovalBody tid size cutcom rpm feedrate pl,
      lineOk line ∨ (∃ x, cutcom = some x ∧ (line = x ∨ line = "G40")) := by
  intro line h
  simp only [ovalBody, List.mem_append] at h
  rcases h with ((((h|h)|h)|h)|h)
  · exact Or.inl (ovalSeg1_ok tid size rpm feedrate pl line h)
  · cases hc : cutcom with
    | none => rw [hc] at h; simp at h
    | some x =>
      rw [hc] at h
      simp only [List.mem_singleton] at h
      exact Or.inr ⟨x, rfl, Or.inl h⟩
  · exact Or.inl (ovalSeg2_ok size feedrate line h)
  · cases hc : cutcom with
    | none => rw [hc] at h; simp at h
    | some x =>
      rw [hc] at h
      simp only [List.mem_singleton] at h
      exact Or.inr ⟨x, rfl, Or.inr h⟩
  · simp only [List.mem_singleton] at h
    subst h
    exact Or.inl (lineOk_of_G '0' (by decide) (by decide) (by decide))

/-- The compensation choice is always `none`, `G41` or `G42`. -/
theorem cutterCompensation_cases (p : Tool) (r : Nat) :
    cutterCompensation p r = none ∨ cutterCompensation p r = some ("G41") ∨
      cutterCompensation p r = some ("G42") := by
  rw [cutterCompensation]
  cases hc : p.cutcom
  · simp
  · have h3 : r % 3 = 0 ∨ r % 3 = 1 ∨ r % 3 = 2 := by omega
    rcases h3 with h|h|h <;> simp [pychoice, h]

/-- The shape choice is always `square` or `oval`. -/
theorem chooseShape_cases (r : Nat) :
    chooseShape r = Shape.square ∨ chooseShape r = Shape.oval := by
  rw [chooseShape]
  have h2 : r % 2 = 0 ∨ r % 2 = 1 := by omega
  rcases h2 with h|h <;> simp [pychoice, h]

/-- Every motion line is a regular toolpath line or comes from the
compensation choice. -/
theorem motion_classify (tid : String) (p : Tool) (d : SeqDraws) :
    ∀ line ∈ generateRandomMotion tid p d,
      lineOk line ∨
        (∃ x, cutterCompensation p d.compR = some x ∧ (line = x ∨ line = "G40")) := by
  intro line h
  rcases chooseShape_cases d.shapeR with hs|hs <;>
    simp only [generateRandomMotion, hs] at h
  · exact squareBody_classify _ _ _ _ _ _ line h
  · exact ovalBody_classify _ _ _ _ _ _ line h

/-- No motion line is a sequence marker. -/
theorem motion_noMarker (tid : String) (p : Tool) (d : SeqDraws) :
    ∀ line ∈ generateRandomMotion tid p d, isMarkerB line = false := by
  intro line h
  rcases motion_classify tid p d line h with hOk | ⟨x, hx, hline⟩
  · exact hOk.1
  · rcases cutterCompensation_cases p d.compR with h0|h0|h0 <;> rw [h0] at hx
    · exact absurd hx (by simp)
    · have hx41 : x = "G41" := (Option.some.inj hx).symm
      rcases hline with rfl|rfl
      · rw [hx41]; decide
      · decide
    · have hx42 : x = "G42" := (Option.some.inj hx).symm
      rcases hline with rfl|rfl
      · rw [hx42]; decide
      · decide

/-- With an unsupported compensation flag every motion line is regular. -/
theorem motion_none_ok (tid : String) (p : Tool) (d : SeqDraws)
    (hcc : p.cutcom = false) :
    ∀ line ∈ generateRandomMotion tid p d, lineOk line := by
  intro line h
  rcases motion_classify tid p d line h with hOk | ⟨x, hx, _⟩
  · exact hOk
  · rw [cutterCompensation, hcc] at hx
    simp at hx

/-- If compensation was chosen, both the chosen command and `G40` appear. -/
theorem motion_mem_comp (tid : String) (p : Tool) (d : SeqDraws) (x : String)
    (hc : cutterCompensation p d.compR = some x) :
    x ∈ generateRandomMotion tid p d ∧ "G40" ∈ generateRandomMotion tid p d := by
  rcases chooseShape_cases d.shapeR with hs|hs <;>
    simp only [generateRandomMotion, hs, hc] <;>
    exact ⟨by simp [squareBody, ovalBody], by simp [squareBody, ovalBody]⟩

/-- A compensation-off command appears exactly when a compensation-on
command does. -/
theorem motion_g40_iff (tid : String) (p : Tool) (d : SeqDraws) :
    (("G41" ∈ generateRandomMotion tid p d) ∨
      ("G42" ∈ generateRandomMotion tid p d)) ↔
      ("G40" ∈ generateRandomMotion tid p d) := by
  rcases cutterCompensation_cases p d.compR with hc|hc|hc
  · have hnone : ∀ line ∈ generateRandomMotion tid p d, lineOk line := by
      intro line h
      rcases motion_classify tid p d line h with hOk | ⟨x, hx, _⟩
      · exact hOk
      · rw [hc] at hx; exact absurd hx (by simp)
    constructor
    · rintro (h|h)
      · exact absurd rfl (hnone _ h).2.2.1
      · exact absurd rfl (hnone _ h).2.2.2
    · intro h
      exact absurd rfl (hnone _ h).2.1
  · have hm := motion_mem_comp tid p d "G41" hc
    exact ⟨fun _ => hm.2, fun _ => Or.inl hm.1⟩
  · have hm := motion_mem_comp tid p d "G42" hc
    exact ⟨fun _ => hm.2, fun _ => Or.inr hm.1⟩

/-- The concatenated sequence chunks starting at any ordinal offset are
chunk-structured. -/
theorem chunked_flatten (seqR : Nat → SeqDraws) (l : List (String × Tool)) :
    ∀ k : Nat,
      Chunked k (((List.enumFrom k l).map
        (fun p => seqChunk (p.1 + 1) p.2 (seqR p.1))).flatten) := by
  induction l with
  | nil =>
    intro k
    exact Chunked.nil k
  | cons x xs ih =>
    intro k
    have hshape :
        (((List.enumFrom k (x :: xs)).map
          (fun p => seqChunk (p.1 + 1) p.2 (seqR p.1))).flatten : List String)
        = startMarker (k + 1) ::
            (generateRandomMotion x.1 x.2 (seqR k) ++
              endMarker (k + 1) ::
                ((List.enumFrom (k + 1) xs).map
                  (fun p => seqChunk (p.1 + 1) p.2 (seqR p.1))).flatten) := by
      simp [List.enumFrom, seqChunk, List.append_assoc]
    rw [hshape]
    exact Chunked.cons k _ _ (motion_noMarker x.1 x.2 (seqR k)) (ih (k + 1))

/-- Filtering the chunks for marker lines keeps exactly the marker pairs. -/
theorem filter_flatten_chunks (seqR : Nat → SeqDraws) (l : List (String × Tool)) :
    ∀ k : Nat,
      (((List.enumFrom k l).map
        (fun p => seqChunk (p.1 + 1) p.2 (seqR p.1))).flatten).filter isMarkerB
      = ((List.enumFrom k l).map
          (fun p => [startMarker (p.1 + 1), endMarker (p.1 + 1)])).flatten := by
  induction l with
  | nil => intro k; rfl
  | cons x xs ih =>
    intro k
    have hmot : (generateRandomMotion x.1 x.2 (seqR k)).filter isMarkerB = [] := by
      refine List.filter_eq_nil_iff.mpr ?_
      intro a ha
      rw [motion_noMarker x.1 x.2 (seqR k) a ha]
      simp
    simp only [List.enumFrom, List.map_cons, List.flatten_cons, List.filter_append]
    rw [seqChunk,
      List.filter_cons_of_pos (by rw [isMarkerB_startMarker]),
      List.filter_append, hmot,
      List.filter_cons_of_pos (by rw [isMarkerB_endMarker]),
      List.filter_nil, ih (k + 1)]
    simp

/-- The controller draw is over a one-element list, hence always grbl. -/
theorem getControlleros_grbl (r : Nat) : getControlleros r = "grbl" := by
  simp [getControlleros, pychoice, Nat.mod_one]

theorem buildState_os (now : Clock) (d : RunDraws) :
    (buildState now d).controlleros = "grbl" := by
  rw [buildState]
  exact getControlleros_grbl d.osR

/-- Explicit shape of the assembled program for the grbl controller. -/
theorem generateGcode_grbl (st : GenState) (hos : st.controlleros = "grbl")
    (tcodes : List (String × Tool)) (n : Nat) (pickR : Nat → Nat)
    (seqR : Nat → SeqDraws) :
    generateGcode st tcodes n pickR seqR =
      some (["%"] ++
        ((headerMeta st ++ startupCodes) ++ generateSequences tcodes n pickR seqR ++
          ["M30"]).enum.map (fun p => "N" ++ toString (2 + p.1) ++ " " ++ p.2) ++
        ["%"]) := by
  simp only [generateGcode, generateFileStart, generateHeader, hos]
  rfl

/-- The uniform draw lies within the requested interval. -/
theorem uniformQ_mem {a b : ℚ} (h : a ≤ b) (r : ℚ) :
    a ≤ uniformQ a b r ∧ uniformQ a b r ≤ b := by
  have h0 := Int.fract_nonneg r
  have h1 := Int.fract_lt_one r
  constructor
  · have h2 := mul_nonneg (sub_nonneg.mpr h) h0
    rw [uniformQ]; linarith
  · have h2 := mul_le_mul_of_nonneg_left h1.le (sub_nonneg.mpr h)
    rw [uniformQ]; linarith

/-- The selector on an empty catalog clamps the subset size to zero and
returns the empty selection. -/
theorem getTcodes_nil (wR : Nat) (sR : Nat → Nat) :
    getTcodes ([] : List (String × Tool)) wR sR = Except.ok [] := by
  rw [getTcodes]
  simp [Nat.min_zero, pysample]

/-- Reindexing marker pairs from the enumerated tool list to ordinals. -/
theorem enum_pairs_range (l : List (String × Tool)) :
    l.enum.map (fun p => [startMarker (p.1 + 1), endMarker (p.1 + 1)]) =
      (List.range l.length).map (fun i => [startMarker (i + 1), endMarker (i + 1)]) := by
  rw [← List.enum_map_fst l, List.map_map]
  rfl

/-- C1: every assembled program is the unnumbered preamble, then the
numbered block (header metadata + startup commands, then the sequence
lines in planning order, then the `M30` terminator) in which line `i`
carries address `preamble_length + 1 + i` — a strictly increasing integer
sequence with step 1 — then the closing sentinel; the preamble line
carries no N-address. -/
theorem c1_assembled_numbering (now : Clock) (tcodes : List (String × Tool))
    (d : RunDraws) :
    ∃ body numbered : List String,
      runPipeline now tcodes d = some (["%"] ++ numbered ++ ["%"]) ∧
      body = headerMeta (buildState now d) ++ startupCodes ++
        generateSequences tcodes
          (getNumberOfSequences tcodes.length d.extraR d.numSeqR)
          d.extraPickR d.seqR ++ ["M30"] ∧
      numbered.length = body.length ∧
      (∀ i : Nat, numbered[i]? =
        body[i]?.map fun l =>
          "N" ++ toString ((["%"] : List String).length + 1 + i) ++ " " ++ l) ∧
      (∀ k : Nat, ∀ rest : String, ("%" : String) ≠ "N" ++ toString k ++ " " ++ rest) := by
  refine ⟨headerMeta (buildState now d) ++ startupCodes ++
      generateSequences tcodes
        (getNumberOfSequences tcodes.length d.extraR d.numSeqR)
        d.extraPickR d.seqR ++ ["M30"],
    (headerMeta (buildState now d) ++ startupCodes ++
      generateSequences tcodes
        (getNumberOfSequences tcodes.length d.extraR d.numSeqR)
        d.extraPickR d.seqR ++ ["M30"]).enum.map
        (fun p => "N" ++ toString (2 + p.1) ++ " " ++ p.2),
    ?_, rfl, ?_, ?_, ?_⟩
  · simp only [runPipeline]
    exact generateGcode_grbl _ (buildState_os now d) _ _ _ _
  · simp [List.enum_length]
  · intro i
    rw [List.getElem?_map, List.getElem?_enum, Option.map_map]
    cases h : (headerMeta (buildState now d) ++ startupCodes ++
        generateSequences tcodes
          (getNumberOfSequences tcodes.length d.extraR d.numSeqR)
          d.extraPickR d.seqR ++ ["M30"])[i]? with
    | none => rfl
    | some a => rfl
  · intro k rest
    exact str_ne_of_get 0 '%' 'N' (by decide)
      (by (repeat apply data_get_append); decide) (by decide)

/-- C2 counterexample: two runs with identical injected draws and the
same selected tool subset but different wall-clock readings produce
different line lists (they differ in the revision-date header line), so
equality of the random stream and the catalog subset alone does not make
the output byte-identical. -/
theorem c2_counterexample :
    runPipeline clock1 T0 d0 ≠ runPipeline clock2 T0 d0 := by
  intro h
  have h5 := congrArg metaLine5 h
  have h1 : metaLine5 (runPipeline clock1 T0 d0) =
      some ("N6 (@@ meta_revisiondate = 01-01-2024)") := by decide
  have h2 : metaLine5 (runPipeline clock2 T0 d0) =
      some ("N6 (@@ meta_revisiondate = 01-02-2024)") := by decide
  rw [h1, h2] at h5
  exact absurd h5 (by decide)

/-- C2 (amended): with the same injected draws, the same selected subset
and the same clock readings, re-running the pipeline produces identical
output. -/
theorem c2_amended_determinism (now : Clock) (t1 t2 : List (String × Tool))
    (d1 d2 : RunDraws) (ht : t1 = t2) (hd : d1 = d2) :
    runPipeline now t1 d1 = runPipeline now t2 d2 := by
  rw [ht, hd]

theorem c2_witness : runPipeline clock1 T0 d0 = runPipeline clock1 T0 d0 :=
  c2_amended_determinism clock1 T0 T0 d0 d0 rfl rfl

/-- C3 counterexample: on the empty catalog the selector returns the
empty selection (`Except.ok []`); it does not fail with
`InsufficientCatalogError` (no code path of `_get_tcodes` raises). -/
theorem c3_counterexample :
    getTcodes ([] : List (String × Tool)) 0 (fun _ => 0) ≠
      Except.error GenError.insufficientCatalog := by
  rw [getTcodes_nil]
  exact fun h => Except.noConfusion h

/-- C3 (amended): tool selection on a catalog with zero entries raises
nothing and returns the empty selection, for every draw outcome. -/
theorem c3_amended_empty_catalog (wR : Nat) (sR : Nat → Nat) :
    getTcodes ([] : List (String × Tool)) wR sR = Except.ok [] :=
  getTcodes_nil wR sR

/-- C4: for a non-empty selected subset, the first `|selected_tools|`
planned sequences are assigned the selected entries once each in
iteration order, all remaining sequences get entries from the subset, and
every selected entry is the tool of at least one planned sequence. -/
theorem c4_coverage (tcodes : List (String × Tool)) (n : Nat)
    (pickR : Nat → Nat) (hne : tcodes ≠ []) :
    (seqnoTools tcodes n pickR).take tcodes.length = tcodes ∧
    (∀ kv ∈ (seqnoTools tcodes n pickR).drop tcodes.length, kv ∈ tcodes) ∧
    (∀ kv ∈ tcodes, kv ∈ seqnoTools tcodes n pickR) := by
  refine ⟨?_, ?_, ?_⟩
  · rw [seqnoTools]
    exact List.take_left tcodes _
  · rw [seqnoTools, List.drop_left]
    intro kv hkv
    simp only [List.mem_map, List.mem_range] at hkv
    obtain ⟨i, _, hi⟩ := hkv
    rw [← hi, pychoice]
    have hlt : pickR i % tcodes.length < tcodes.length :=
      Nat.mod_lt _ (List.length_pos.mpr hne)
    rw [List.getD_eq_getElem?_getD, List.getElem?_eq_getElem hlt]
    exact List.getElem_mem hlt
  · intro kv hkv
    rw [seqnoTools]
    exact List.mem_append_left _ hkv

theorem c4_witness :
    T0 ≠ [] ∧
    ((seqnoTools T0 3 (fun _ => 0)).take T0.length = T0 ∧
     (∀ kv ∈ (seqnoTools T0 3 (fun _ => 0)).drop T0.length, kv ∈ T0) ∧
     (∀ kv ∈ T0, kv ∈ seqnoTools T0 3 (fun _ => 0))) :=
  ⟨by simp [T0], c4_coverage T0 3 (fun _ => 0) (by simp [T0])⟩

/-- C5: for every selected subset and every draw outcome the planned
sequence count lies between `|selected_tools|` and `|selected_tools| + 5`. -/
theorem c5_sequence_count_bound (tcodes : List (String × Tool))
    (extraR nR : Nat) :
    tcodes.length ≤ getNumberOfSequences tcodes.length extraR nR ∧
      getNumberOfSequences tcodes.length extraR nR ≤ tcodes.length + 5 := by
  simp only [getNumberOfSequences, randint, Nat.zero_add, Nat.add_sub_cancel_left]
  have h2 : extraR % 6 < 6 := Nat.mod_lt _ (by omega)
  have h1 : nR % (extraR % (5 - 0 + 1) + 1) < extraR % (5 - 0 + 1) + 1 :=
    Nat.mod_lt _ (Nat.succ_pos _)
  omega

/-- C6: the synthesized spindle speed and feedrate are the fixed rounding
transforms of values drawn within the tool's declared `sfm` and `ipt`
ranges — never below the minimum nor above the maximum. -/
theorem c6_range_respect (p : Tool) (r1 r2 : ℚ) (hd : 0 < p.diameter)
    (hsfm : p.sfm.min ≤ p.sfm.max) (hipt : p.ipt.min ≤ p.ipt.max) :
    (∃ s : ℚ, p.sfm.min ≤ s ∧ s ≤ p.sfm.max ∧
      calcRandomRpm p r1 = round2 (s * 3.82 / p.diameter)) ∧
    (∃ t : ℚ, p.ipt.min ≤ t ∧ t ≤ p.ipt.max ∧
      calcRandomFeedrate p (calcRandomRpm p r1) r2 =
        round2 (t * calcRandomRpm p r1)) :=
  ⟨⟨uniformQ p.sfm.min p.sfm.max r1, (uniformQ_mem hsfm r1).1,
      (uniformQ_mem hsfm r1).2, rfl⟩,
    ⟨uniformQ p.ipt.min p.ipt.max r2, (uniformQ_mem hipt r2).1,
      (uniformQ_mem hipt r2).2, rfl⟩⟩

theorem c6_witness :
    (0 < tool0.diameter ∧ tool0.sfm.min ≤ tool0.sfm.max ∧
      tool0.ipt.min ≤ tool0.ipt.max) ∧
    ((∃ s : ℚ, tool0.sfm.min ≤ s ∧ s ≤ tool0.sfm.max ∧
      calcRandomRpm tool0 0 = round2 (s * 3.82 / tool0.diameter)) ∧
    (∃ t : ℚ, tool0.ipt.min ≤ t ∧ t ≤ tool0.ipt.max ∧
      calcRandomFeedrate tool0 (calcRandomRpm tool0 0) 0 =
        round2 (t * calcRandomRpm tool0 0))) :=
  ⟨⟨by norm_num [tool0], by norm_num [tool0], by norm_num [tool0]⟩,
    c6_range_respect tool0 0 0 (by norm_num [tool0]) (by norm_num [tool0])
      (by norm_num [tool0])⟩

/-- C7: if a tool does not support cutter compensation, no motion line is
`G41`, `G42` or `G40`; if it does, the compensation choice ranges over
none/left/right (each attainable), and a compensation-off command is
emitted exactly when a compensation-on command was. -/
theorem c7_compensation_gating (p : Tool) (tid : String) (d : SeqDraws) :
    (p.cutcom = false →
      ∀ line ∈ generateRandomMotion tid p d,
        line ≠ "G41" ∧ line ≠ "G42" ∧ line ≠ "G40") ∧
    (p.cutcom = true →
      (∀ r : Nat, cutterCompensation p r = none ∨
        cutterCompensation p r = some ("G41") ∨
        cutterCompensation p r = some ("G42")) ∧
      (∀ c ∈ ([none, some ("G41"), some ("G42")] : List (Option String)),
        ∃ r : Nat, cutterCompensation p r = c) ∧
      ((("G41" ∈ generateRandomMotion tid p d) ∨
        ("G42" ∈ generateRandomMotion tid p d)) ↔
        ("G40" ∈ generateRandomMotion tid p d))) := by
  constructor
  · intro hf line h
    have hOk := motion_none_ok tid p d hf line h
    exact ⟨hOk.2.2.1, hOk.2.2.2, hOk.2.1⟩
  · intro ht
    refine ⟨fun r => cutterCompensation_cases p r, ?_, motion_g40_iff tid p d⟩
    intro c hc
    simp only [List.mem_cons, List.not_mem_nil, or_false] at hc
    rcases hc with rfl|rfl|rfl
    · exact ⟨0, by simp [cutterCompensation, ht, pychoice]⟩
    · exact ⟨1, by simp [cutterCompensation, ht, pychoice]⟩
    · exact ⟨2, by simp [cutterCompensation, ht, pychoice]⟩

theorem c7_witness :
    toolNC.cutcom = false ∧
    ¬ (("G41" : String) ∈ generateRandomMotion ("100001") toolNC sd0) :=
  ⟨rfl, fun h =>
    ((c7_compensation_gating toolNC ("100001") sd0).1 rfl ("G41") h).1 rfl⟩

/-- C8: the generated sequence block consists of consecutive chunks
`seq_start=N`, marker-free body, `seq_end=N` with ordinals ascending from
1 in planning order, and filtering it for marker lines yields exactly the
matched pairs in ascending order. -/
theorem c8_balanced_markers (tcodes : List (String × Tool)) (n : Nat)
    (pickR : Nat → Nat) (seqR : Nat → SeqDraws) :
    Chunked 0 (generateSequences tcodes n pickR seqR) ∧
    (generateSequences tcodes n pickR seqR).filter isMarkerB =
      ((List.range (seqnoTools tcodes n pickR).length).map
        (fun i => [startMarker (i + 1), endMarker (i + 1)])).flatten := by
  constructor
  · exact chunked_flatten seqR (seqnoTools tcodes n pickR) 0
  · rw [generateSequences]
    rw [show (seqnoTools tcodes n pickR).enum =
      List.enumFrom 0 (seqnoTools tcodes n pickR) from rfl]
    rw [filter_flatten_chunks seqR (seqnoTools tcodes n pickR) 0]
    rw [show List.enumFrom 0 (seqnoTools tcodes n pickR) =
      (seqnoTools tcodes n pickR).enum from rfl]
    rw [enum_pairs_range]

/-- C9: the random shape choice never selects the triangle family; both
implemented families are attainable, and every emitted motion body is
produced by the square generator or the oval generator. -/
theorem c9_shape_choice (r : Nat) :
    chooseShape r ≠ Shape.triangle ∧
    chooseShape 0 = Shape.square ∧ chooseShape 1 = Shape.oval ∧
    ∀ (tid : String) (p : Tool) (d : SeqDraws),
      generateRandomMotion tid p d =
        squareBody tid (randint 5 20 d.sizeR) (cutterCompensation p d.compR)
          (calcRandomRpm p d.sfmR)
          (calcRandomFeedrate p (calcRandomRpm p d.sfmR) d.iptR) d.plungeR ∨
      generateRandomMotion tid p d =
        ovalBody tid (randint 5 20 d.sizeR) (cutterCompensation p d.compR)
          (calcRandomRpm p d.sfmR)
          (calcRandomFeedrate p (calcRandomRpm p d.sfmR) d.iptR) d.plungeR := by
  refine ⟨?_, by simp [chooseShape, pychoice], by simp [chooseShape, pychoice], ?_⟩
  · rcases chooseShape_cases r with h|h <;> rw [h] <;> simp
  · intro tid p d
    rcases chooseShape_cases d.shapeR with h|h
    · left
      simp only [generateRandomMotion, h]
    · right
      simp only [generateRandomMotion, h]

/-- C10: the machine identifier draw is uniform over `{1, 2, 3}`, yet the
emitted header annotation for the machine identifier is always the
literal `(@@ meta_machineid = 1)` (program line 8, address `N9`),
independent of the draw. -/
theorem c10_machineid_literal (now : Clock) (tcodes : List (String × Tool))
    (d : RunDraws) :
    getMachineid d.machineR ∈ ([1, 2, 3] : List Nat) ∧
    (runPipeline now tcodes d).bind (fun l => l[8]?) =
      some ("N9 (@@ meta_machineid = 1)") := by
  constructor
  · rw [getMachineid, pychoice]
    have h3 : d.machineR % 3 = 0 ∨ d.machineR % 3 = 1 ∨ d.machineR % 3 = 2 := by
      omega
    rcases h3 with h|h|h <;> simp [h]
  · simp only [runPipeline]
    rw [generateGcode_grbl _ (buildState_os now d)]
    simp only [Option.bind]
    rw [List.append_assoc, List.singleton_append]
    rw [show (8 : Nat) = 7 + 1 from rfl, List.getElem?_cons_succ]
    have hlen : 7 <
        (((headerMeta (buildState now d) ++ startupCodes) ++
          generateSequences tcodes
            (getNumberOfSequences tcodes.length d.extraR d.numSeqR)
            d.extraPickR d.seqR ++ ["M30"]).enum.map
          (fun p => "N" ++ toString (2 + p.1) ++ " " ++ p.2)).length := by
      simp [List.enum_length, headerMeta, startupCodes]
    rw [List.getElem?_append, if_pos hlen, List.getElem?_map, List.getElem?_enum]
    rw [List.append_assoc, List.append_assoc]
    rw [List.getElem?_append,
      if_pos (by simp [headerMeta] : 7 < (headerMeta (buildState now d)).length)]
    rw [show (headerMeta (buildState now d))[7]? =
      some ("(@@ meta_machineid = 1)") from rfl]
    decide

end GcodeGen
